import Mathlib

set_option autoImplicit false

/-!
Shallow embedding of the flare-emissary alert pipeline core
(crates `engine`, `indexer`, `decoders`, `common`), used to check the
natural-language specification against the code.

Conventions of the embedding:
* machine integers (`u64`) are modelled as `Nat`; `f64` values flowing through
  the threshold evaluator are modelled as `ℚ` (the claims under check are about
  control flow, field extraction and comparisons, not float rounding);
* `Uuid` values are modelled as `Nat` identifiers, timestamps as `Nat`;
* fallible external calls (Redis commands, SQL inserts, RPC fetches) are
  modelled with `Except`/`Option` and explicit state threading;
* `serde_json::Value` is modelled by the inductive `Jv` below.
-/

namespace Flare

/-- Model of `serde_json::Value`: JSON values as stored in `decoded_data` and
`threshold_config` columns.  Objects are association lists of key/value pairs. -/
inductive Jv where
  | jNull
  | jBool (b : Bool)
  | jNum (q : ℚ)
  | jStr (s : String)
  | jArr (elems : List Jv)
  | jObj (fields : List (String × Jv))

/-- Model of `serde_json::Value::get(key)` for object values: the value stored
under `key`, `none` for non-objects or missing keys. -/
def Jv.get : Jv → String → Option Jv
  | .jObj fields, key => (fields.find? (fun p => p.1 = key)).map Prod.snd
  | _, _ => none

/-- Model of `Value::as_f64`: numeric JSON values yield their number. -/
def Jv.as_f64 : Jv → Option ℚ
  | .jNum q => some q
  | _ => none

/-- Model of `Value::as_str`. -/
def Jv.as_str : Jv → Option String
  | .jStr s => some s
  | _ => none

/-- Numeric value of a digit character list (characters checked at call site). -/
def digitsToNat (cs : List Char) : Nat :=
  cs.foldl (fun a c => a * 10 + (c.toNat - 48)) 0

/-- Unsigned part of `str::parse::<f64>` on plain decimal literals:
`"12"`, `"12.5"`, `"12."`, `".5"`.  Exponent and infinity/NaN forms of the Rust
parser are not modelled; no code path under check produces or tests them. -/
def parseUnsignedDecimal (cs : List Char) : Option ℚ :=
  let intPart := cs.takeWhile Char.isDigit
  match cs.dropWhile Char.isDigit with
  | [] =>
      if intPart ≠ [] then some (digitsToNat intPart) else none
  | c :: rest =>
      if c = '.' then
        let fracPart := rest.takeWhile Char.isDigit
        if rest.dropWhile Char.isDigit = [] ∧ (intPart ≠ [] ∨ fracPart ≠ []) then
          some ((digitsToNat intPart : ℚ) +
            (digitsToNat fracPart : ℚ) / ((10 : ℚ) ^ fracPart.length))
        else none
      else none

/-- Model of `str::parse::<f64>` (decimal literals, with optional sign). -/
def parseF64 (s : String) : Option ℚ :=
  match s.data with
  | '-' :: rest => (parseUnsignedDecimal rest).map Neg.neg
  | '+' :: rest => parseUnsignedDecimal rest
  | cs => parseUnsignedDecimal cs

/-- Embeds `flare_common::types::Chain`. -/
inductive Chain where
  | flare
  | songbird
deriving DecidableEq

/-- Embeds `flare_common::types::EventType`. -/
inductive EventType where
  | price_epoch_finalized
  | vote_power_changed
  | reward_epoch_started
  | attestation_requested
  | attestation_proved
  | round_finalized
  | collateral_deposited
  | collateral_withdrawn
  | minting_executed
  | redemption_requested
  | liquidation_started
  | generic_event
deriving DecidableEq

/-- Embeds `flare_common::types::Severity`. -/
inductive Severity where
  | info
  | warning
  | critical
deriving DecidableEq

/-- Embeds `flare_common::types::DeliveryStatus`. -/
inductive DeliveryStatus where
  | pending
  | sent
  | failed
deriving DecidableEq

/-- Embeds `flare_common::types::ThresholdConfig` (all fields optional). -/
structure ThresholdConfig where
  min_value : Option ℚ
  max_value : Option ℚ
  deviation_pct : Option ℚ
  hysteresis_blocks : Option Nat
  cooldown_seconds : Option Nat
deriving DecidableEq

/-- Rust `Default` for `ThresholdConfig`: every field `None`. -/
instance : Inhabited ThresholdConfig := ⟨⟨none, none, none, none, none⟩⟩

/-- serde deserialization of one `Option<f64>` struct field from a JSON object:
missing or `null` gives `None`; a JSON number gives `Some`; any other JSON type
is a deserialization error (the whole config fails to parse). -/
def parseOptF64Field (fields : List (String × Jv)) (key : String) :
    Option (Option ℚ) :=
  match (fields.find? (fun p => p.1 = key)).map Prod.snd with
  | none => some none
  | some .jNull => some none
  | some (.jNum q) => some (some q)
  | some _ => none

/-- serde deserialization of one `Option<u64>` struct field: missing or `null`
gives `None`; a JSON number that is an unsigned integer in `u64` range gives
`Some`; anything else is a deserialization error. -/
def parseOptU64Field (fields : List (String × Jv)) (key : String) :
    Option (Option Nat) :=
  match (fields.find? (fun p => p.1 = key)).map Prod.snd with
  | none => some none
  | some .jNull => some none
  | some (.jNum q) =>
      if q.den = 1 ∧ 0 ≤ q.num ∧ q.num < 2 ^ 64 then some (some q.num.toNat)
      else none
  | some _ => none

/-- Model of `serde_json::from_value::<ThresholdConfig>`: `none` is a
deserialization error.  Unknown keys are ignored (serde default); a non-object
value fails. -/
def parseThresholdConfig : Jv → Option ThresholdConfig
  | .jObj fields => do
      let min_value ← parseOptF64Field fields "min_value"
      let max_value ← parseOptF64Field fields "max_value"
      let deviation_pct ← parseOptF64Field fields "deviation_pct"
      let hysteresis_blocks ← parseOptU64Field fields "hysteresis_blocks"
      let cooldown_seconds ← parseOptU64Field fields "cooldown_seconds"
      pure ⟨min_value, max_value, deviation_pct, hysteresis_blocks, cooldown_seconds⟩
  | _ => none

/-- Embeds `flare_common::types::Subscription`. -/
structure Subscription where
  id : Nat
  user_id : Nat
  address_id : Nat
  channel_id : Nat
  event_type : EventType
  threshold_config : Jv
  active : Bool
  created_at : Nat

/-- Embeds `flare_common::types::DecodedEvent`. -/
structure DecodedEvent where
  tx_hash : String
  log_index : Option Nat
  block_number : Nat
  block_timestamp : Nat
  chain : Chain
  address : String
  event_type : EventType
  decoded_data : Jv

namespace AlertMatcher

/-- Inner loop of `AlertMatcher::extract_value`: walk the ordered key list; a
key that is present but holds neither a number nor a parsable string falls
through to the next key. -/
def extractFromKeys (data : Jv) : List String → Option ℚ
  | [] => none
  | key :: rest =>
    match data.get key with
    | none => extractFromKeys data rest
    | some v =>
      match v.as_f64 with
      | some f => some f
      | none =>
        match v.as_str with
        | some s =>
          match parseF64 s with
          | some f => some f
          | none => extractFromKeys data rest
        | none => extractFromKeys data rest

/-- Embeds `AlertMatcher::extract_value`. -/
def extract_value (data : Jv) : Option ℚ :=
  extractFromKeys data ["value", "price", "amount", "cr", "vote_power"]

/-- Embeds `AlertMatcher::evaluate_threshold`.  The sequential early-return checks of
the source are rendered as a disjunction; no check has side effects. -/
def evaluate_threshold (subscription : Subscription) (event : DecodedEvent) :
    Bool :=
  let config := (parseThresholdConfig subscription.threshold_config).getD default
  let event_value := extract_value event.decoded_data
  if config.min_value.isNone && config.max_value.isNone &&
      config.deviation_pct.isNone then
    true
  else
    match event_value with
    | none => false
    | some value =>
      let minHit :=
        match config.min_value with
        | some m => decide (value < m)
        | none => false
      let maxHit :=
        match config.max_value with
        | some m => decide (value > m)
        | none => false
      let devHit :=
        match config.deviation_pct with
        | some deviation_threshold =>
          match (event.decoded_data.get "baseline").bind Jv.as_f64 with
          | some baseline =>
            if baseline ≠ 0 then
              decide (|(value - baseline) / baseline| * 100 ≥ deviation_threshold)
            else false
          | none => false
        | none => false
      minHit || maxHit || devHit

end AlertMatcher

namespace HysteresisEngine

/-- Embeds `flare_engine::hysteresis::HysteresisState`. -/
structure HysteresisState where
  consecutive_count : Nat
  first_triggered_block : Nat
  last_block : Nat
deriving DecidableEq

/-- The in-memory per-subscription state map (`HashMap<Uuid, HysteresisState>`),
as an association list with at most one entry per key. -/
abbrev States := List (Nat × HysteresisState)

/-- Embeds `HashMap::remove` on the state map. -/
def removeState (states : States) (subscription_id : Nat) : States :=
  states.filter (fun p => p.1 ≠ subscription_id)

/-- Embeds `HashMap::get` on the state map. -/
def findState (states : States) (subscription_id : Nat) :
    Option HysteresisState :=
  (states.find? (fun p => p.1 = subscription_id)).map Prod.snd

/-- Embeds `HysteresisEngine::required_blocks`: `hysteresis_blocks` from the parsed
config, defaulting the whole config on a parse error, then defaulting the field
to `DEFAULT_HYSTERESIS_BLOCKS = 1`. -/
def required_blocks (subscription : Subscription) : Nat :=
  (((parseThresholdConfig subscription.threshold_config).getD
    default).hysteresis_blocks).getD 1

/-- Embeds `HysteresisEngine::check`.  Returns the fire decision and the updated state
map.  Mirrors the source: on `threshold_met = false` drop the state; otherwise
fetch-or-initialize `(0, block_number, 0)`, extend or reset the streak, and on
reaching the required count drop the state and fire. -/
def check (states : States) (subscription_id : Nat) (threshold_met : Bool)
    (block_number : Nat) (subscription : Subscription) : Bool × States :=
  let required := required_blocks subscription
  if !threshold_met then
    (false, removeState states subscription_id)
  else
    let st0 := (findState states subscription_id).getD
      ⟨0, block_number, 0⟩
    let st :=
      if st0.last_block = 0 || block_number = st0.last_block + 1 ||
          block_number = st0.last_block then
        { st0 with
          consecutive_count :=
            if block_number ≠ st0.last_block then st0.consecutive_count + 1
            else st0.consecutive_count,
          last_block := block_number }
      else
        ⟨1, block_number, block_number⟩
    if required ≤ st.consecutive_count then
      (true, removeState states subscription_id)
    else
      (false, (subscription_id, st) :: removeState states subscription_id)

end HysteresisEngine

namespace CooldownEngine

/-- State of the shared key/value store (Redis): whether the connection is
usable, and the set of currently live keys.  TTL expiry is not modelled; no
claim under check depends on a key expiring. -/
structure RedisState where
  available : Bool
  keys : List String
deriving DecidableEq

/-- The cooldown key `subscription:cooldown:<id>`. -/
def cooldownKey (subscription_id : Nat) : String :=
  "subscription:cooldown:" ++ toString subscription_id

/-- Embeds `CooldownEngine::cooldown_seconds`, defaulting to
`DEFAULT_COOLDOWN_SECONDS = 300`. -/
def cooldown_seconds (subscription : Subscription) : Nat :=
  (((parseThresholdConfig subscription.threshold_config).getD
    default).cooldown_seconds).getD 300

/-- Embeds `CooldownEngine::check_and_set`: a `SET key 1 NX EX ttl` round trip.
When the store is unavailable the command errors and the `?` operator in the
source propagates it (`Except.error`); otherwise the reply is `Some("OK")`
exactly when the key was absent, in which case the key is created. -/
def check_and_set (redis : RedisState) (subscription_id : Nat)
    (subscription : Subscription) : Except Unit (Bool × RedisState) :=
  let _ := cooldown_seconds subscription
  if !redis.available then
    Except.error ()
  else if redis.keys.contains (cooldownKey subscription_id) then
    Except.ok (false, redis)
  else
    Except.ok (true, { redis with keys := cooldownKey subscription_id :: redis.keys })

end CooldownEngine

namespace EventProcessor

/-- Severity assigned by `EventProcessor::translate_event`, per event type.
The title/body string formatting of the payload is not modelled; no claim
under check depends on the rendered text. -/
def event_severity : EventType → Severity
  | .price_epoch_finalized => .info
  | .vote_power_changed => .warning
  | .reward_epoch_started => .info
  | .attestation_requested => .info
  | .attestation_proved => .info
  | .round_finalized => .info
  | .collateral_deposited => .info
  | .collateral_withdrawn => .warning
  | .minting_executed => .info
  | .redemption_requested => .warning
  | .liquidation_started => .critical
  | .generic_event => .info

/-- One row of the `alerts` table.  `event_id` is resolved in the source by a
subquery on `(tx_hash, log_index)`; the embedding keeps that pair as the event
reference. -/
structure AlertRow where
  id : Nat
  subscription_id : Nat
  tx_hash : String
  log_index : Option Nat
  severity : Severity
  triggered_at : Nat
deriving DecidableEq

/-- One row of the `notifications` table. -/
structure NotificationRow where
  id : Nat
  alert_id : Nat
  channel_id : Nat
  status : DeliveryStatus
  created_at : Nat
deriving DecidableEq

/-- The alert/notification side of the relational store, with failure
injection flags modelling a failed `INSERT` statement (connection loss,
constraint violation, ...). -/
structure Db where
  alerts : List AlertRow
  notifications : List NotificationRow
  alert_insert_fails : Bool
  notification_insert_fails : Bool
deriving DecidableEq

/-- The `INSERT INTO alerts` statement: appends a row, or errors.  Note there
is no surrounding transaction in the source — each insert commits on its own. -/
def insertAlert (db : Db) (row : AlertRow) : Except Unit Db :=
  if db.alert_insert_fails then Except.error ()
  else Except.ok { db with alerts := db.alerts ++ [row] }

/-- The `INSERT INTO notifications` statement. -/
def insertNotification (db : Db) (row : NotificationRow) : Except Unit Db :=
  if db.notification_insert_fails then Except.error ()
  else Except.ok { db with notifications := db.notifications ++ [row] }

/-- Result of processing one matched subscription: final database, key/value
store and hysteresis state, the number of alerts created, and whether an error
was propagated out of `process_event` by the `?` operator (in which case the
side effects already performed remain). -/
structure ProcessOutcome where
  db : Db
  redis : CooldownEngine.RedisState
  hysteresis : HysteresisEngine.States
  alerts_created : Nat
  errored : Bool
deriving DecidableEq

/-- The per-subscription body of the loop in `EventProcessor::process_event`:
threshold gate, hysteresis gate, cooldown gate (each an early-out), then the
two separate inserts.  `alert_id`, `notification_id` and `now` stand for
`Uuid::new_v4()` and `Utc::now()` drawn at that point in the source. -/
def process_one (db : Db) (redis : CooldownEngine.RedisState)
    (hysteresis : HysteresisEngine.States) (subscription : Subscription)
    (event : DecodedEvent) (alert_id notification_id now : Nat) :
    ProcessOutcome :=
  if !(AlertMatcher.evaluate_threshold subscription event) then
    ⟨db, redis, hysteresis, 0, false⟩
  else
    let checked := HysteresisEngine.check hysteresis subscription.id true
      event.block_number subscription
    if !checked.1 then
      ⟨db, redis, checked.2, 0, false⟩
    else
      match CooldownEngine.check_and_set redis subscription.id subscription with
      | Except.error _ => ⟨db, redis, checked.2, 0, true⟩
      | Except.ok (allowed, redis') =>
        if !allowed then
          ⟨db, redis', checked.2, 0, false⟩
        else
          match insertAlert db ⟨alert_id, subscription.id, event.tx_hash,
              event.log_index, event_severity event.event_type, now⟩ with
          | Except.error _ => ⟨db, redis', checked.2, 0, true⟩
          | Except.ok db1 =>
            match insertNotification db1 ⟨notification_id, alert_id,
                subscription.channel_id, DeliveryStatus.pending, now⟩ with
            | Except.error _ => ⟨db1, redis', checked.2, 0, true⟩
            | Except.ok db2 => ⟨db2, redis', checked.2, 1, false⟩

end EventProcessor

/-- Block hashes (`B256` in the reorg detector) carry no structure the detector
uses beyond equality; they are modelled as `Nat`. -/
abbrev BlockHash := Nat

namespace ReorgDetector

/-- The sliding window of recent `(block_number, block_hash)` pairs: oldest
entry first, new entries appended at the back (`VecDeque::push_back`). -/
structure Detector where
  window : List (Nat × BlockHash)
  max_size : Nat

/-- The chain oracle used during the divergence walk: the current canonical
hash at each height (`get_block_by_number(...).map(|b| b.header.hash)`), with
`none` for an absent block.  Oracle transport errors abort the whole cycle in
the source before any detector state changes, and are not modelled here. -/
abbrev Canonical := Nat → Option BlockHash

/-- The loop inside `ReorgDetector::find_divergence_point`, applied to the
window iterated newest-to-oldest: the first stored entry whose hash is still
canonical yields `block_number + 1`. -/
def walk (canonical : Canonical) : List (Nat × BlockHash) → Option Nat
  | [] => none
  | (block_number, expected_hash) :: rest =>
    if canonical block_number = some expected_hash then some (block_number + 1)
    else walk canonical rest

/-- Embeds `ReorgDetector::find_divergence_point`: walk the window newest-to-oldest;
if the whole window has diverged, fall back to the oldest stored height
(`window.front()`), or 0 for an empty window. -/
def find_divergence_point (d : Detector) (canonical : Canonical) : Nat :=
  (walk canonical d.window.reverse).getD ((d.window.head?.map Prod.fst).getD 0)

/-- Appending a block to the window with eviction of the oldest entry when the
capacity is exceeded. -/
def record (d : Detector) (block_number : Nat) (block_hash : BlockHash) :
    Detector :=
  let w := d.window ++ [(block_number, block_hash)]
  { d with window := if d.max_size < w.length then w.tail else w }

/-- Embeds `ReorgDetector::check_and_record`: if the window holds an entry for
`block_number - 1` whose hash differs from `parent_hash`, report a reorg at
the divergence point and retain only window entries below it; otherwise record
the new block. -/
def check_and_record (d : Detector) (block_number : Nat)
    (block_hash parent_hash : BlockHash) (canonical : Canonical) :
    Option Nat × Detector :=
  match if 0 < block_number then
      d.window.find? (fun en => en.1 = block_number - 1)
    else none with
  | some en =>
    if parent_hash ≠ en.2 then
      let reorg_start := find_divergence_point d canonical
      (some reorg_start,
        { d with window := d.window.filter (fun e => e.1 < reorg_start) })
    else
      (none, record d block_number block_hash)
  | none => (none, record d block_number block_hash)

end ReorgDetector

namespace Decoders

/-- A byte (values < 256 at every use site). -/
abbrev Byte := Nat

/-- A 32-byte EVM word (`B256`), as its big-endian byte list. -/
abbrev B256 := List Byte

/-- Lowercase hex digit for a value < 16 (`'0'..'9'`, `'a'..'f'`). -/
def hexDigitChar (n : Nat) : Char :=
  if n < 10 then Char.ofNat (48 + n) else Char.ofNat (87 + n)

/-- Two lowercase hex digits of one byte. -/
def byteHex (b : Byte) : String :=
  String.mk [hexDigitChar (b / 16), hexDigitChar (b % 16)]

/-- Embeds `alloy::hex::encode`: lowercase hex of a byte slice, no prefix. -/
def hexEncode (bytes : List Byte) : String :=
  String.join (bytes.map byteHex)

/-- Big-endian byte list to natural number (`U256::from_be_bytes` and
`u64::from_be_bytes`; widths are enforced at call sites). -/
def beToNat (bytes : List Byte) : Nat :=
  bytes.foldl (fun acc b => acc * 256 + b) 0

/-- Rendering of a `B256` topic with `format!` and the `:#x` flag:
`0x` followed by the lowercase hex of all 32 bytes. -/
def formatB256 (t : B256) : String :=
  "0x" ++ hexEncode t

/-- An EVM log as handed to the decoders (`alloy::primitives::Log`): emitting
address (20 bytes), topics, data bytes. -/
structure Log where
  address : List Byte
  topics : List B256
  data : List Byte

/-- Rendering of the emitting address with `format!("\x7b:#x\x7d", log.address)`. -/
def formatAddress (address : List Byte) : String :=
  "0x" ++ hexEncode address

/-- Embeds `FassetDecoder::decode_address_from_topic`: the low 20 bytes
(`as_slice()[12..32]`) of the topic, hex-encoded with a `0x` prefix. -/
def decode_address_from_topic (t : B256) : String :=
  "0x" ++ hexEncode (t.drop 12)

/-- Embeds `FassetDecoder::decode_u256_from_data`: when the data reaches
`offset + 32` bytes, the 32-byte big-endian word at `offset` rendered as a
decimal string; otherwise `None`. -/
def decode_u256_from_data (data : List Byte) (offset : Nat) : Option String :=
  if offset + 32 ≤ data.length then
    some (toString (beToNat ((data.drop offset).take 32)))
  else none

/-- Embeds `u64::from_be_bytes(bytes[24..32].try_into().unwrap_or_default())` applied
to a topic: bytes 24..32 big-endian; a slice that is not exactly 8 bytes
decodes the `Default` zero array. -/
def u64FromTopicTail (t : B256) : Nat :=
  let tail := (t.drop 24).take 8
  if tail.length = 8 then beToNat tail else 0

/-- serde serialization of an `Option<String>` field inside the `json!` macro:
`Some` becomes a JSON string, `None` becomes JSON `null` — the key stays
present either way. -/
def optStr : Option String → Jv
  | some s => Jv.jStr s
  | none => Jv.jNull

/-- serde serialization of an `Option<u64>` field inside `json!`. -/
def optNum : Option Nat → Jv
  | some n => Jv.jNum n
  | none => Jv.jNull

/-- The `FassetDecoder` struct: the five Keccak-256 signature hashes computed
in `FassetDecoder::new`.  Keccak itself is an external library; the decoders
are embedded over the stored hash values, which is all `decode` reads. -/
structure FassetDecoder where
  collateral_deposited : B256
  collateral_withdrawn : B256
  minting_executed : B256
  redemption_requested : B256
  liquidation_started : B256

/-- Embeds `FassetDecoder::decode`. -/
def FassetDecoder.decode (d : FassetDecoder) (log : Log) (block_number : Nat)
    (block_timestamp : Nat) (chain : Chain) : Option DecodedEvent :=
  match log.topics.head? with
  | none => none
  | some topic0 =>
    let address := formatAddress log.address
    let data := log.data
    if topic0 = d.collateral_deposited then
      let agent := (log.topics.get? 1).map decode_address_from_topic
      let amount := decode_u256_from_data data 0
      some ⟨"", none, block_number, block_timestamp, chain, address,
        EventType.collateral_deposited,
        Jv.jObj [("agent", optStr agent), ("amount", optStr amount)]⟩
    else if topic0 = d.collateral_withdrawn then
      let agent := (log.topics.get? 1).map decode_address_from_topic
      let amount := decode_u256_from_data data 0
      some ⟨"", none, block_number, block_timestamp, chain, address,
        EventType.collateral_withdrawn,
        Jv.jObj [("agent", optStr agent), ("amount", optStr amount)]⟩
    else if topic0 = d.minting_executed then
      let minter := (log.topics.get? 1).map decode_address_from_topic
      let agent := (log.topics.get? 2).map decode_address_from_topic
      let lots := decode_u256_from_data data 0
      some ⟨"", none, block_number, block_timestamp, chain, address,
        EventType.minting_executed,
        Jv.jObj [("minter", optStr minter), ("agent", optStr agent),
          ("lots", optStr lots)]⟩
    else if topic0 = d.redemption_requested then
      let redeemer := (log.topics.get? 1).map decode_address_from_topic
      let agent := (log.topics.get? 2).map decode_address_from_topic
      let lots := decode_u256_from_data data 0
      some ⟨"", none, block_number, block_timestamp, chain, address,
        EventType.redemption_requested,
        Jv.jObj [("redeemer", optStr redeemer), ("agent", optStr agent),
          ("lots", optStr lots)]⟩
    else if topic0 = d.liquidation_started then
      let agent := (log.topics.get? 1).map decode_address_from_topic
      some ⟨"", none, block_number, block_timestamp, chain, address,
        EventType.liquidation_started, Jv.jObj [("agent", optStr agent)]⟩
    else
      none

/-- The `FtsoDecoder` struct: the three signature hashes from
`FtsoDecoder::new`. -/
structure FtsoDecoder where
  price_epoch_finalized : B256
  vote_power_changed : B256
  reward_epoch_started : B256

/-- Embeds `FtsoDecoder::decode`. -/
def FtsoDecoder.decode (d : FtsoDecoder) (log : Log) (block_number : Nat)
    (block_timestamp : Nat) (chain : Chain) : Option DecodedEvent :=
  match log.topics.head? with
  | none => none
  | some topic0 =>
    let address := formatAddress log.address
    if topic0 = d.price_epoch_finalized then
      let epoch_id := (log.topics.get? 1).map u64FromTopicTail
      some ⟨"", none, block_number, block_timestamp, chain, address,
        EventType.price_epoch_finalized,
        Jv.jObj [("epoch_id", optNum epoch_id),
          ("raw_data", Jv.jStr ("0x" ++ hexEncode log.data))]⟩
    else if topic0 = d.vote_power_changed then
      let provider := (log.topics.get? 1).map
        (fun t => "0x" ++ hexEncode (t.drop 12))
      let new_vote_power :=
        if 32 ≤ log.data.length then
          some (toString (beToNat (log.data.take 32)))
        else none
      some ⟨"", none, block_number, block_timestamp, chain, address,
        EventType.vote_power_changed,
        Jv.jObj [("provider", optStr provider),
          ("new_vote_power", optStr new_vote_power)]⟩
    else if topic0 = d.reward_epoch_started then
      let epoch_id := (log.topics.get? 1).map u64FromTopicTail
      some ⟨"", none, block_number, block_timestamp, chain, address,
        EventType.reward_epoch_started,
        Jv.jObj [("epoch_id", optNum epoch_id)]⟩
    else
      none

/-- The `FdcDecoder` struct: the three signature hashes from
`FdcDecoder::new`. -/
structure FdcDecoder where
  attestation_requested : B256
  attestation_proved : B256
  round_finalized : B256

/-- Embeds `FdcDecoder::decode`. -/
def FdcDecoder.decode (d : FdcDecoder) (log : Log) (block_number : Nat)
    (block_timestamp : Nat) (chain : Chain) : Option DecodedEvent :=
  match log.topics.head? with
  | none => none
  | some topic0 =>
    let address := formatAddress log.address
    if topic0 = d.attestation_requested then
      let request_id := (log.topics.get? 1).map formatB256
      let requester := (log.topics.get? 2).map
        (fun t => "0x" ++ hexEncode (t.drop 12))
      some ⟨"", none, block_number, block_timestamp, chain, address,
        EventType.attestation_requested,
        Jv.jObj [("request_id", optStr request_id),
          ("requester", optStr requester)]⟩
    else if topic0 = d.attestation_proved then
      let request_id := (log.topics.get? 1).map formatB256
      let merkle_root := (log.topics.get? 2).map formatB256
      some ⟨"", none, block_number, block_timestamp, chain, address,
        EventType.attestation_proved,
        Jv.jObj [("request_id", optStr request_id),
          ("merkle_root", optStr merkle_root)]⟩
    else if topic0 = d.round_finalized then
      let round_id := (log.topics.get? 1).map u64FromTopicTail
      some ⟨"", none, block_number, block_timestamp, chain, address,
        EventType.round_finalized, Jv.jObj [("round_id", optNum round_id)]⟩
    else
      none

/-- Embeds `GenericDecoder::decode`: any log with at least one topic becomes a
`generic_event` carrying the raw topics and data as hex strings. -/
def GenericDecoder.decode (log : Log) (block_number : Nat)
    (block_timestamp : Nat) (chain : Chain) : Option DecodedEvent :=
  match log.topics.head? with
  | none => none
  | some topic0 =>
    let address := formatAddress log.address
    some ⟨"", none, block_number, block_timestamp, chain, address,
      EventType.generic_event,
      Jv.jObj [("topic0", Jv.jStr (formatB256 topic0)),
        ("topics", Jv.jArr (log.topics.map (fun t => Jv.jStr (formatB256 t)))),
        ("data", Jv.jStr ("0x" ++ hexEncode log.data))]⟩

/-- The `DecoderRegistry`: an ordered list of decode functions
(`Vec<Box<dyn EventDecoder>>` reduced to the one method dispatch uses). -/
abbrev DecoderRegistry := List (Log → Nat → Nat → Chain → Option DecodedEvent)

/-- Embeds `DecoderRegistry::decode`: try each decoder in order, return the first
successful decode. -/
def DecoderRegistry.decode (registry : DecoderRegistry) (log : Log)
    (block_number : Nat) (block_timestamp : Nat) (chain : Chain) :
    Option DecodedEvent :=
  registry.findSome? (fun d => d log block_number block_timestamp chain)

end Decoders

namespace BlockPoller

/-- A block header as used by the poller: hash, parent hash, timestamp. -/
structure BlockHeader where
  hash : BlockHash
  parent_hash : BlockHash
  timestamp : Nat

/-- A raw EVM log as fetched over RPC: the inner log body handed to the
decoders, plus the envelope fields the poller stamps onto decoded events. -/
structure RpcLog where
  inner : Decoders.Log
  transaction_hash : Option String
  log_index : Option Nat

/-- The RPC provider: block headers by height, logs per block (already
filtered by the poller's address filter), and the current head. -/
structure Provider where
  block_by_number : Nat → Option BlockHeader
  logs_at : Nat → List RpcLog
  latest_block : Nat

/-- The canonical-hash oracle derived from the provider, as used by
`find_divergence_point`. -/
def Provider.canonical (p : Provider) : ReorgDetector.Canonical :=
  fun n => (p.block_by_number n).map BlockHeader.hash

/-- One row of `indexed_events`. -/
structure EventRow where
  tx_hash : String
  log_index : Option Nat
  block_number : Nat
  block_timestamp : Nat
  chain : Chain
  address : String
  event_type : EventType
  decoded_data : Jv
  is_reorged : Bool

/-- The event-store side owned by the poller: `indexed_events` plus this
chain's `indexer_state.last_block` cursor. -/
structure IndexDb where
  events : List EventRow
  cursor : Option Nat

/-- State carried across poll cycles: the loop's `current_block`, the reorg
detector, and the database. -/
structure PollerState where
  current_block : Nat
  detector : ReorgDetector.Detector
  db : IndexDb

/-- A `DecodedEvent` turned into an `indexed_events` row (`is_reorged = false`),
with `tx_hash` and `log_index` stamped from the log envelope, as done in
`poll_block` (`unwrap_or_default` renders a missing tx hash as `""`). -/
def stampRow (log : RpcLog) (ev : DecodedEvent) : EventRow :=
  { tx_hash := log.transaction_hash.getD ""
    log_index := log.log_index
    block_number := ev.block_number
    block_timestamp := ev.block_timestamp
    chain := ev.chain
    address := ev.address
    event_type := ev.event_type
    decoded_data := ev.decoded_data
    is_reorged := false }

/-- Embeds `BlockPoller::persist_events`: idempotent inserts — a row whose
`(tx_hash, log_index)` already exists is skipped (`ON CONFLICT DO NOTHING`). -/
def persist_events (stored : List EventRow) (events : List EventRow) :
    List EventRow :=
  events.foldl
    (fun acc e =>
      if acc.any (fun r => r.tx_hash = e.tx_hash ∧ r.log_index = e.log_index)
      then acc else acc ++ [e])
    stored

/-- Embeds `BlockPoller::rollback_events_from`: mark every stored event of this chain
at height `≥ from_block` as reorged. -/
def rollback_events_from (stored : List EventRow) (from_block : Nat)
    (chain : Chain) : List EventRow :=
  stored.map (fun r =>
    if from_block ≤ r.block_number ∧ r.chain = chain then
      { r with is_reorged := true }
    else r)

/-- The starting height computed at the top of `BlockPoller::run`: the stored
cursor value (`unwrap_or(0)`), replaced by the chain head when it is 0. -/
def initial_block (last_indexed : Option Nat) (latest : Nat) : Nat :=
  let current := last_indexed.getD 0
  if current = 0 then latest else current

/-- One iteration of the polling loop in `BlockPoller::run`, with
`poll_block` inlined; `decoders` is the poller's `DecoderRegistry`.  A missing
block header is the retry path: sleep and re-poll the same height with no
state change.  A detected reorg rolls events back and yields `Ok(vec![])`,
after which the loop body still updates the cursor to the current height and
advances to the next block. -/
def poll_cycle (p : Provider) (decoders : Decoders.DecoderRegistry)
    (chain : Chain) (s : PollerState) : PollerState :=
  match p.block_by_number s.current_block with
  | none => s
  | some header =>
    match ReorgDetector.check_and_record s.detector s.current_block header.hash
        header.parent_hash p.canonical with
    | (some reorg_block, detector') =>
      { current_block := s.current_block + 1
        detector := detector'
        db := { events := rollback_events_from s.db.events reorg_block chain
                cursor := some s.current_block } }
    | (none, detector') =>
      let events := (p.logs_at s.current_block).filterMap
        (fun log =>
          (Decoders.DecoderRegistry.decode decoders log.inner s.current_block
            header.timestamp chain).map (stampRow log))
      { current_block := s.current_block + 1
        detector := detector'
        db := { events := persist_events s.db.events events
                cursor := some s.current_block } }

end BlockPoller

/-!  Concrete fixtures used by witnesses and counterexamples.  -/

/-- A subscription with an empty `threshold_config` (catch-all, default
hysteresis and cooldown). -/
def subCatchAll : Subscription :=
  ⟨1, 1, 1, 1, .price_epoch_finalized, Jv.jObj [], true, 0⟩

/-- A subscription with `max_value = 1`. -/
def subMax1 : Subscription :=
  ⟨2, 1, 1, 1, .price_epoch_finalized, Jv.jObj [("max_value", Jv.jNum 1)], true, 0⟩

/-- A subscription with `hysteresis_blocks = 2`. -/
def subHyst2 : Subscription :=
  ⟨3, 1, 1, 1, .price_epoch_finalized,
    Jv.jObj [("hysteresis_blocks", Jv.jNum 2)], true, 0⟩

/-- A subscription whose `threshold_config` does not deserialize: `min_value`
holds a non-numeric string. -/
def subBadCfg : Subscription :=
  ⟨4, 1, 1, 1, .price_epoch_finalized,
    Jv.jObj [("min_value", Jv.jStr "abc")], true, 0⟩

/-- An event whose payload carries `price = 150`. -/
def evPrice150 : DecodedEvent :=
  ⟨"0xabc", some 0, 100, 0, .flare, "0x1234", .price_epoch_finalized,
    Jv.jObj [("price", Jv.jNum 150)]⟩

/-- An event whose payload has a non-numeric `value` entry followed by a
numeric `price` entry. -/
def evStray : DecodedEvent :=
  ⟨"0xb", some 1, 100, 0, .flare, "0xaddr", .price_epoch_finalized,
    Jv.jObj [("value", Jv.jStr "abc"), ("price", Jv.jNum 5)]⟩

section ClaimProofs

attribute [local semireducible] Rat.add Rat.mul Rat.inv Rat.sub Rat.ofScientific

/-!  Hysteresis helper lemmas.  -/

theorem findState_removeState (states : HysteresisEngine.States) (id : Nat) :
    HysteresisEngine.findState (HysteresisEngine.removeState states id) id =
      none := by
  simp only [HysteresisEngine.findState, HysteresisEngine.removeState,
    Option.map_eq_none', List.find?_eq_none, List.mem_filter, decide_eq_true_eq,
    and_imp]
  intro a _ ha
  simpa using ha

theorem findState_cons_self (states : HysteresisEngine.States) (id : Nat)
    (st : HysteresisEngine.HysteresisState) :
    HysteresisEngine.findState ((id, st) :: states) id = some st := by
  simp [HysteresisEngine.findState, List.find?]

/-- Behaviour of `HysteresisEngine::check` on a subscription with no tracked
state, at a positive height: the streak becomes 1 and the call fires exactly
when one block suffices. -/
theorem check_fresh (states : HysteresisEngine.States) (id block_number : Nat)
    (subscription : Subscription)
    (hf : HysteresisEngine.findState states id = none)
    (hbn : 1 ≤ block_number) :
    HysteresisEngine.check states id true block_number subscription =
      if HysteresisEngine.required_blocks subscription ≤ 1 then
        (true, HysteresisEngine.removeState states id)
      else
        (false, (id, ⟨1, block_number, block_number⟩) ::
          HysteresisEngine.removeState states id) := by
  have hbn0 : block_number ≠ 0 := by omega
  simp [HysteresisEngine.check, hf, hbn0]

/-- Whenever `HysteresisEngine::check` fires, the resulting state map is the
input map with the subscription's entry removed. -/
theorem check_fire_removes (states : HysteresisEngine.States)
    (id : Nat) (threshold_met : Bool) (block_number : Nat)
    (subscription : Subscription)
    (h : (HysteresisEngine.check states id threshold_met block_number
      subscription).1 = true) :
    (HysteresisEngine.check states id threshold_met block_number
      subscription).2 = HysteresisEngine.removeState states id := by
  cases threshold_met with
  | false => simp [HysteresisEngine.check] at h
  | true =>
    simp only [HysteresisEngine.check, Bool.not_true, Bool.false_eq_true,
      if_false] at h ⊢
    split_ifs at h ⊢ <;> rfl

/-- C6 (amended): for a subscription with no tracked state and a block height
of at least 1, a `check` with `threshold_met = true` computes a streak of 1
with `last_block` the given height, and fires exactly when the required block
count is at most 1; when it fires the entry is immediately dropped, otherwise
the initialized state is stored. -/
theorem C6_theorem (states : HysteresisEngine.States) (id block_number : Nat)
    (subscription : Subscription)
    (hf : HysteresisEngine.findState states id = none)
    (hbn : 1 ≤ block_number) :
    (HysteresisEngine.check states id true block_number subscription).1 =
      decide (HysteresisEngine.required_blocks subscription ≤ 1) ∧
    ((HysteresisEngine.check states id true block_number subscription).1 =
        false →
      HysteresisEngine.findState
        (HysteresisEngine.check states id true block_number subscription).2 id =
        some ⟨1, block_number, block_number⟩) ∧
    ((HysteresisEngine.check states id true block_number subscription).1 =
        true →
      HysteresisEngine.findState
        (HysteresisEngine.check states id true block_number subscription).2 id =
        none) := by
  rw [check_fresh states id block_number subscription hf hbn]
  by_cases hreq : HysteresisEngine.required_blocks subscription ≤ 1
  · simp [hreq, findState_removeState]
  · simp [hreq, findState_cons_self]

/-- C6 counterexample: at block height 0 (a height the claim quantifies
over), a first-seen `check` with the default config (required count 1)
returns `false` and records a streak of 0, not the claimed `true` and
streak 1. -/
theorem C6_counterexample :
    (HysteresisEngine.check [] 1 true 0 subCatchAll).1 = false ∧
    HysteresisEngine.required_blocks subCatchAll = 1 ∧
    HysteresisEngine.findState
      (HysteresisEngine.check [] 1 true 0 subCatchAll).2 1 =
      some ⟨0, 0, 0⟩ := by
  refine ⟨by decide, by decide, by decide⟩

/-- C6 witness: a fresh check at height 5 with `hysteresis_blocks = 2` does
not fire and stores streak 1. -/
theorem C6_witness :
    (HysteresisEngine.check [] 3 true 5 subHyst2).1 =
      decide (HysteresisEngine.required_blocks subHyst2 ≤ 1) ∧
    ((HysteresisEngine.check [] 3 true 5 subHyst2).1 = false →
      HysteresisEngine.findState
        (HysteresisEngine.check [] 3 true 5 subHyst2).2 3 = some ⟨1, 5, 5⟩) ∧
    ((HysteresisEngine.check [] 3 true 5 subHyst2).1 = true →
      HysteresisEngine.findState
        (HysteresisEngine.check [] 3 true 5 subHyst2).2 3 = none) :=
  C6_theorem [] 3 5 subHyst2 (by decide) (by decide)

/-- C7: whenever a hysteresis check fires for a subscription, the tracked
state for it is removed, and an immediately following
`check(sub, true, h + 1, ...)` fires only if the required block count is at
most 1. -/
theorem C7_theorem (states : HysteresisEngine.States) (id : Nat)
    (threshold_met : Bool) (block_number : Nat) (subscription : Subscription)
    (hfire : (HysteresisEngine.check states id threshold_met block_number
      subscription).1 = true) :
    HysteresisEngine.findState
      (HysteresisEngine.check states id threshold_met block_number
        subscription).2 id = none ∧
    ((HysteresisEngine.check
        (HysteresisEngine.check states id threshold_met block_number
          subscription).2 id true (block_number + 1) subscription).1 = true →
      HysteresisEngine.required_blocks subscription ≤ 1) := by
  have hsnd := check_fire_removes states id threshold_met block_number
    subscription hfire
  have hnone : HysteresisEngine.findState
      (HysteresisEngine.check states id threshold_met block_number
        subscription).2 id = none := by
    rw [hsnd]; exact findState_removeState states id
  refine ⟨hnone, fun hnext => ?_⟩
  rw [check_fresh _ id (block_number + 1) subscription hnone (by omega)]
    at hnext
  by_cases hreq : HysteresisEngine.required_blocks subscription ≤ 1
  · exact hreq
  · simp [hreq] at hnext

/-- C7 witness: with `hysteresis_blocks = 2` and a one-block streak already
tracked, the check at height 11 fires, clears the state, and the immediate
follow-up at height 12 cannot fire again (2 ≤ 1 is false). -/
theorem C7_witness :
    (HysteresisEngine.check [(3, ⟨1, 10, 10⟩)] 3 true 11 subHyst2).1 = true ∧
    HysteresisEngine.findState
      (HysteresisEngine.check [(3, ⟨1, 10, 10⟩)] 3 true 11 subHyst2).2 3 =
      none ∧
    ((HysteresisEngine.check
        (HysteresisEngine.check [(3, ⟨1, 10, 10⟩)] 3 true 11 subHyst2).2 3
        true 12 subHyst2).1 = true →
      HysteresisEngine.required_blocks subHyst2 ≤ 1) :=
  have hfire : (HysteresisEngine.check [(3, ⟨1, 10, 10⟩)] 3 true 11
      subHyst2).1 = true := by decide
  ⟨hfire, (C7_theorem [(3, ⟨1, 10, 10⟩)] 3 true 11 subHyst2 hfire).1,
    (C7_theorem [(3, ⟨1, 10, 10⟩)] 3 true 11 subHyst2 hfire).2⟩

/-- C10: a `threshold_config` that fails to deserialize is silently replaced
by the default config everywhere: the threshold evaluator passes every event
(catch-all), the hysteresis requirement is the default 1 block, and the
cooldown is the default 300 seconds.  All three functions are total, so no
error is raised. -/
theorem C10_theorem (subscription : Subscription)
    (hbad : parseThresholdConfig subscription.threshold_config = none) :
    (∀ event : DecodedEvent,
      AlertMatcher.evaluate_threshold subscription event = true) ∧
    HysteresisEngine.required_blocks subscription = 1 ∧
    CooldownEngine.cooldown_seconds subscription = 300 := by
  refine ⟨fun event => ?_, ?_, ?_⟩
  · simp only [AlertMatcher.evaluate_threshold, hbad]; rfl
  · simp only [HysteresisEngine.required_blocks, hbad]; rfl
  · simp only [CooldownEngine.cooldown_seconds, hbad]; rfl

/-- C10 witness: a config with a string in `min_value` fails to deserialize;
the pipeline treats the subscription as catch-all with the defaults. -/
theorem C10_witness :
    parseThresholdConfig subBadCfg.threshold_config = none ∧
    AlertMatcher.evaluate_threshold subBadCfg evPrice150 = true ∧
    HysteresisEngine.required_blocks subBadCfg = 1 ∧
    CooldownEngine.cooldown_seconds subBadCfg = 300 :=
  ⟨by decide, (C10_theorem subBadCfg (by decide)).1 evPrice150,
    (C10_theorem subBadCfg (by decide)).2.1,
    (C10_theorem subBadCfg (by decide)).2.2⟩

/-!  Claims C2 and C3: cooldown store failure, alert/notification inserts.  -/

/-- An unavailable key/value store. -/
def redisDown : CooldownEngine.RedisState := ⟨false, []⟩

/-- An available key/value store with no live cooldown keys. -/
def redisUp : CooldownEngine.RedisState := ⟨true, []⟩

/-- An empty healthy database. -/
def dbEmpty : EventProcessor.Db := ⟨[], [], false, false⟩

/-- A database on which the notification insert fails (the alert insert still
succeeds). -/
def dbNotifFail : EventProcessor.Db := ⟨[], [], false, true⟩

/-- C2 (amended): when the key/value store is unavailable, `check_and_set`
returns an error (it does not return `false`); `process_event` propagates the
error with the `?` operator, so no alert row is created for the event — the
alert is suppressed by the failure, not by a `false` return. -/
theorem C2_theorem (redis : CooldownEngine.RedisState)
    (subscription_id : Nat) (subscription : Subscription)
    (db : EventProcessor.Db) (hysteresis : HysteresisEngine.States)
    (event : DecodedEvent) (alert_id notification_id now : Nat)
    (hdown : redis.available = false) :
    CooldownEngine.check_and_set redis subscription_id subscription =
      Except.error () ∧
    (EventProcessor.process_one db redis hysteresis subscription event
      alert_id notification_id now).db = db ∧
    (EventProcessor.process_one db redis hysteresis subscription event
      alert_id notification_id now).alerts_created = 0 ∧
    (AlertMatcher.evaluate_threshold subscription event = true →
      (HysteresisEngine.check hysteresis subscription.id true
        event.block_number subscription).1 = true →
      (EventProcessor.process_one db redis hysteresis subscription event
        alert_id notification_id now).errored = true) := by
  have herr : ∀ sid : Nat,
      CooldownEngine.check_and_set redis sid subscription =
        Except.error () := by
    intro sid
    simp [CooldownEngine.check_and_set, hdown]
  refine ⟨herr subscription_id, ?_⟩
  unfold EventProcessor.process_one
  cases hth : AlertMatcher.evaluate_threshold subscription event <;>
    cases hhy : (HysteresisEngine.check hysteresis subscription.id true
      event.block_number subscription).1 <;>
    simp [hth, hhy, herr subscription.id]

/-- C2 counterexample: with the store down, `check_and_set` returns
`Except.error ()` — not the `Ok(false)` the claim states — and the processor
reports the error instead of a clean suppression. -/
theorem C2_counterexample :
    CooldownEngine.check_and_set redisDown 7 subCatchAll = Except.error () ∧
    CooldownEngine.check_and_set redisDown 7 subCatchAll ≠
      Except.ok (false, redisDown) ∧
    (EventProcessor.process_one dbEmpty redisDown [] subCatchAll evPrice150
      1 2 3).errored = true := by
  refine ⟨rfl, fun h => Except.noConfusion h, by decide⟩

/-- C2 witness: concrete instantiation of the amended claim. -/
theorem C2_witness :
    CooldownEngine.check_and_set redisDown 9 subCatchAll = Except.error () ∧
    (EventProcessor.process_one dbEmpty redisDown [] subCatchAll evPrice150
      1 2 3).db = dbEmpty ∧
    (EventProcessor.process_one dbEmpty redisDown [] subCatchAll evPrice150
      1 2 3).alerts_created = 0 ∧
    (AlertMatcher.evaluate_threshold subCatchAll evPrice150 = true →
      (HysteresisEngine.check [] subCatchAll.id true
        evPrice150.block_number subCatchAll).1 = true →
      (EventProcessor.process_one dbEmpty redisDown [] subCatchAll evPrice150
        1 2 3).errored = true) :=
  C2_theorem redisDown 9 subCatchAll dbEmpty [] evPrice150 1 2 3 rfl

/-- C3 (amended): for a subscription passing threshold, hysteresis and
cooldown, the processor issues two separate inserts with no surrounding
transaction: when both succeed, exactly one alert row and one pending
notification row are appended; when the notification insert fails after the
alert insert succeeded, the alert row remains persisted and the error is
propagated — the pair is not atomic. -/
theorem C3_theorem (db : EventProcessor.Db)
    (redis redis' : CooldownEngine.RedisState)
    (hysteresis : HysteresisEngine.States) (subscription : Subscription)
    (event : DecodedEvent) (alert_id notification_id now : Nat)
    (hth : AlertMatcher.evaluate_threshold subscription event = true)
    (hhy : (HysteresisEngine.check hysteresis subscription.id true
      event.block_number subscription).1 = true)
    (hcd : CooldownEngine.check_and_set redis subscription.id subscription =
      Except.ok (true, redis'))
    (halert : db.alert_insert_fails = false) :
    (db.notification_insert_fails = false →
      (EventProcessor.process_one db redis hysteresis subscription event
        alert_id notification_id now).db.alerts =
        db.alerts ++ [⟨alert_id, subscription.id, event.tx_hash,
          event.log_index, EventProcessor.event_severity event.event_type,
          now⟩] ∧
      (EventProcessor.process_one db redis hysteresis subscription event
        alert_id notification_id now).db.notifications =
        db.notifications ++ [⟨notification_id, alert_id,
          subscription.channel_id, DeliveryStatus.pending, now⟩] ∧
      (EventProcessor.process_one db redis hysteresis subscription event
        alert_id notification_id now).alerts_created = 1 ∧
      (EventProcessor.process_one db redis hysteresis subscription event
        alert_id notification_id now).errored = false) ∧
    (db.notification_insert_fails = true →
      (EventProcessor.process_one db redis hysteresis subscription event
        alert_id notification_id now).db.alerts =
        db.alerts ++ [⟨alert_id, subscription.id, event.tx_hash,
          event.log_index, EventProcessor.event_severity event.event_type,
          now⟩] ∧
      (EventProcessor.process_one db redis hysteresis subscription event
        alert_id notification_id now).db.notifications = db.notifications ∧
      (EventProcessor.process_one db redis hysteresis subscription event
        alert_id notification_id now).alerts_created = 0 ∧
      (EventProcessor.process_one db redis hysteresis subscription event
        alert_id notification_id now).errored = true) := by
  unfold EventProcessor.process_one
  constructor <;> intro hnf <;>
    simp [hth, hhy, hcd, EventProcessor.insertAlert,
      EventProcessor.insertNotification, halert, hnf]

/-- C3 counterexample: with a failing notification insert, processing a fully
passing subscription leaves the alert row persisted and no notification row —
the claimed all-or-nothing transactional behaviour does not hold. -/
theorem C3_counterexample :
    (EventProcessor.process_one dbNotifFail redisUp [] subCatchAll evPrice150
      1 2 3).db.alerts =
      [⟨1, 1, "0xabc", some 0, Severity.info, 3⟩] ∧
    (EventProcessor.process_one dbNotifFail redisUp [] subCatchAll evPrice150
      1 2 3).db.notifications = [] ∧
    (EventProcessor.process_one dbNotifFail redisUp [] subCatchAll evPrice150
      1 2 3).errored = true := by
  refine ⟨by decide, by decide, by decide⟩

/-- C3 witness: concrete instantiation of the amended claim on a healthy
database (both implications, with the success branch discharged). -/
theorem C3_witness :
    ((dbEmpty : EventProcessor.Db).notification_insert_fails = false →
      (EventProcessor.process_one dbEmpty redisUp [] subCatchAll evPrice150
        1 2 3).db.alerts =
        dbEmpty.alerts ++ [⟨1, subCatchAll.id, evPrice150.tx_hash,
          evPrice150.log_index,
          EventProcessor.event_severity evPrice150.event_type, 3⟩] ∧
      (EventProcessor.process_one dbEmpty redisUp [] subCatchAll evPrice150
        1 2 3).db.notifications =
        dbEmpty.notifications ++ [⟨2, 1, subCatchAll.channel_id,
          DeliveryStatus.pending, 3⟩] ∧
      (EventProcessor.process_one dbEmpty redisUp [] subCatchAll evPrice150
        1 2 3).alerts_created = 1 ∧
      (EventProcessor.process_one dbEmpty redisUp [] subCatchAll evPrice150
        1 2 3).errored = false) ∧
    ((dbEmpty : EventProcessor.Db).notification_insert_fails = true →
      (EventProcessor.process_one dbEmpty redisUp [] subCatchAll evPrice150
        1 2 3).db.alerts =
        dbEmpty.alerts ++ [⟨1, subCatchAll.id, evPrice150.tx_hash,
          evPrice150.log_index,
          EventProcessor.event_severity evPrice150.event_type, 3⟩] ∧
      (EventProcessor.process_one dbEmpty redisUp [] subCatchAll evPrice150
        1 2 3).db.notifications = dbEmpty.notifications ∧
      (EventProcessor.process_one dbEmpty redisUp [] subCatchAll evPrice150
        1 2 3).alerts_created = 0 ∧
      (EventProcessor.process_one dbEmpty redisUp [] subCatchAll evPrice150
        1 2 3).errored = true) :=
  C3_theorem dbEmpty redisUp ⟨true, [CooldownEngine.cooldownKey 1]⟩ []
    subCatchAll evPrice150 1 2 3 (by decide) (by decide) rfl rfl

/-!  Claims C1 and C4: the polling loop around reorgs and startup.  -/

/-- The poll cycle never moves `current_block` backwards: a cycle either
retries the same height (block not yet available) or advances by one — also
in the reorg branch. -/
theorem poll_cycle_step_mono (p : BlockPoller.Provider)
    (registry : Decoders.DecoderRegistry) (chain : Chain)
    (s : BlockPoller.PollerState) :
    s.current_block ≤ (BlockPoller.poll_cycle p registry chain s).current_block := by
  unfold BlockPoller.poll_cycle
  split
  · exact le_refl _
  · split
    · exact Nat.le_succ _
    · exact Nat.le_succ _

/-- C1 (amended): when the reorg detector reports a rollback at `r` during
the cycle for height `h`, the poller marks all stored events for its chain at
heights `≥ r` as reorged and emits no new events in that cycle; however the
cycle is then treated as a success — the cursor is updated to `h` and the
next cycle starts at `h + 1`, not at `h`. -/
theorem C1_theorem (p : BlockPoller.Provider)
    (registry : Decoders.DecoderRegistry) (chain : Chain)
    (s : BlockPoller.PollerState) (header : BlockPoller.BlockHeader)
    (reorg_block : Nat) (detector' : ReorgDetector.Detector)
    (hhdr : p.block_by_number s.current_block = some header)
    (hreorg : ReorgDetector.check_and_record s.detector s.current_block
      header.hash header.parent_hash p.canonical = (some reorg_block, detector')) :
    BlockPoller.poll_cycle p registry chain s =
      { current_block := s.current_block + 1
        detector := detector'
        db := { events := BlockPoller.rollback_events_from s.db.events
                  reorg_block chain
                cursor := some s.current_block } } ∧
    (∀ row ∈ s.db.events, reorg_block ≤ row.block_number → row.chain = chain →
      { row with is_reorged := true } ∈
        (BlockPoller.poll_cycle p registry chain s).db.events) := by
  have hcycle : BlockPoller.poll_cycle p registry chain s =
      { current_block := s.current_block + 1
        detector := detector'
        db := { events := BlockPoller.rollback_events_from s.db.events
                  reorg_block chain
                cursor := some s.current_block } } := by
    unfold BlockPoller.poll_cycle
    rw [hhdr]
    dsimp only
    rw [hreorg]
  refine ⟨hcycle, fun row hrow hge hch => ?_⟩
  rw [hcycle]
  exact List.mem_map.mpr ⟨row, hrow, by simp [hge, hch]⟩

/-- The block header returned for height 10 on the forked chain. -/
def hdr10 : BlockPoller.BlockHeader := ⟨201, 999, 0⟩

/-- A provider on which block 10 has a parent hash (999) that does not match
the recorded hash of block 9 (the detector stored 100), and whose canonical
hash at height 9 is now 150. -/
def pReorg : BlockPoller.Provider :=
  ⟨fun n => if n = 10 then some hdr10 else if n = 9 then some ⟨150, 0, 0⟩
    else none,
   fun _ => [], 10⟩

/-- A stored event at height 9, not yet reorged. -/
def ev9row : BlockPoller.EventRow :=
  ⟨"0xa", some 0, 9, 0, .flare, "0xaddr", .price_epoch_finalized,
    Jv.jObj [], false⟩

/-- Poller state about to poll height 10 with block 9 in the reorg window and
the cursor at 9. -/
def sReorg : BlockPoller.PollerState :=
  ⟨10, ⟨[(9, 100)], 10⟩, ⟨[ev9row], some 9⟩⟩

/-- C1 counterexample: in a cycle at height 10 where the detector reports a
rollback at 9, the code still updates the cursor to 10 and restarts the next
cycle at 11 — the claim states the cursor is untouched and the next cycle
re-runs height 10. -/
theorem C1_counterexample :
    (ReorgDetector.check_and_record sReorg.detector 10 201 999
      pReorg.canonical).1 = some 9 ∧
    (BlockPoller.poll_cycle pReorg [] Chain.flare sReorg).current_block = 11 ∧
    (BlockPoller.poll_cycle pReorg [] Chain.flare sReorg).db.cursor =
      some 10 := by
  refine ⟨by decide, by decide, by decide⟩

/-- C1 witness: the amended claim at the concrete forked chain — events at
heights at least 9 are marked reorged, nothing is emitted, the cursor moves
to 10 and the next height is 11. -/
theorem C1_witness :
    BlockPoller.poll_cycle pReorg [] Chain.flare sReorg =
      ⟨11, ⟨[], 10⟩,
        ⟨[⟨"0xa", some 0, 9, 0, .flare, "0xaddr", .price_epoch_finalized,
          Jv.jObj [], true⟩], some 10⟩⟩ := by
  have h := (C1_theorem pReorg [] Chain.flare sReorg hdr10 9 ⟨[], 10⟩
    rfl rfl).1
  rw [h]
  rfl

/-- A provider with no blocks (every fetch is the retry path). -/
def pIdle : BlockPoller.Provider := ⟨fun _ => none, fun _ => [], 0⟩

/-- A fresh poller state at height 5. -/
def sAtFive : BlockPoller.PollerState := ⟨5, ⟨[], 10⟩, ⟨[], none⟩⟩

/-- C4 (amended): on startup the poller's initial polling height equals the
cursor's stored last-processed height itself — not that height plus one —
when a cursor row exists with a nonzero height (the last processed block is
re-polled; idempotent persistence absorbs the duplicate rows); when no cursor
row exists, or the stored height is 0, the initial height is the current
chain head.  The polling height never decreases across cycles, so the poller
never polls below this starting point. -/
theorem C4_theorem (b latest : Nat) (p : BlockPoller.Provider)
    (registry : Decoders.DecoderRegistry) (chain : Chain)
    (s : BlockPoller.PollerState) (cycles : Nat) (hb : b ≠ 0) :
    BlockPoller.initial_block (some b) latest = b ∧
    BlockPoller.initial_block none latest = latest ∧
    BlockPoller.initial_block (some 0) latest = latest ∧
    s.current_block ≤
      ((BlockPoller.poll_cycle p registry chain)^[cycles] s).current_block := by
  refine ⟨by simp [BlockPoller.initial_block, hb],
    by simp [BlockPoller.initial_block],
    by simp [BlockPoller.initial_block], ?_⟩
  induction cycles generalizing s with
  | zero => simp
  | succ n ih =>
    rw [Function.iterate_succ_apply]
    exact le_trans (poll_cycle_step_mono p registry chain s) (ih _)

/-- C4 counterexample: with a cursor row storing height 500 and chain head
1000, the code starts at 500, not at the claimed 501. -/
theorem C4_counterexample :
    BlockPoller.initial_block (some 500) 1000 = 500 ∧
    BlockPoller.initial_block (some 500) 1000 ≠ 501 := by
  refine ⟨by decide, by decide⟩

/-- C4 witness: the amended claim at concrete inputs. -/
theorem C4_witness :
    BlockPoller.initial_block (some 500) 1000 = 500 ∧
    BlockPoller.initial_block none 1000 = 1000 ∧
    BlockPoller.initial_block (some 0) 1000 = 1000 ∧
    sAtFive.current_block ≤
      ((BlockPoller.poll_cycle pIdle [] Chain.flare)^[3]
        sAtFive).current_block :=
  C4_theorem 500 1000 pIdle [] Chain.flare sAtFive 3 (by decide)

/-!  Claim C5: the divergence walk of the reorg detector.  -/

/-- The divergence rule as the claim states it: walk the stored window from
newest entry (back of the deque, so the reversed list) to oldest; the first
stored height whose hash still matches the canonical chain is last-good, and
`last_good + 1` is the rollback target; if no stored entry matches, the
oldest stored height is returned. -/
def find_divergence_rule (window : List (Nat × BlockHash))
    (canonical : ReorgDetector.Canonical) : Nat :=
  match window.reverse.find? (fun en => canonical en.1 = some en.2) with
  | some last_good => last_good.1 + 1
  | none => (window.head?.map Prod.fst).getD 0

/-- The divergence-walk loop short-circuits at the first entry whose stored
hash is still canonical. -/
theorem walk_eq_find (canonical : ReorgDetector.Canonical)
    (l : List (Nat × BlockHash)) :
    ReorgDetector.walk canonical l =
      (l.find? (fun en => canonical en.1 = some en.2)).map
        (fun en => en.1 + 1) := by
  induction l with
  | nil => rfl
  | cons hd tl ih =>
    obtain ⟨bn, hh⟩ := hd
    by_cases h : canonical bn = some hh
    · simp [ReorgDetector.walk, List.find?_cons, h]
    · simp [ReorgDetector.walk, List.find?_cons, h, ih]

/-- Embeds `find_divergence_point` computes the claim's divergence rule. -/
theorem find_divergence_point_eq (d : ReorgDetector.Detector)
    (canonical : ReorgDetector.Canonical) :
    ReorgDetector.find_divergence_point d canonical =
      find_divergence_rule d.window canonical := by
  unfold ReorgDetector.find_divergence_point find_divergence_rule
  rw [walk_eq_find]
  cases h : d.window.reverse.find? (fun en => canonical en.1 = some en.2) <;>
    simp [h]

/-- C5: on a reported reorg (the window holds an entry for the parent height
whose hash mismatches the new block's parent hash), `check_and_record`
returns the rollback target given by the newest-to-oldest divergence walk —
`last_good + 1` for the first (newest) still-canonical entry, the oldest
stored height when the whole window diverged — and purges every window entry
at a height `≥` the returned target (exactly the entries below it remain). -/
theorem C5_theorem (d : ReorgDetector.Detector)
    (canonical : ReorgDetector.Canonical) (block_number : Nat)
    (block_hash parent_hash : BlockHash) (en : Nat × BlockHash)
    (hpos : 0 < block_number)
    (hfind : d.window.find? (fun e => e.1 = block_number - 1) = some en)
    (hmis : parent_hash ≠ en.2) :
    ReorgDetector.check_and_record d block_number block_hash parent_hash
      canonical =
      (some (find_divergence_rule d.window canonical),
        ⟨d.window.filter
          (fun e => e.1 < find_divergence_rule d.window canonical),
          d.max_size⟩) := by
  unfold ReorgDetector.check_and_record
  rw [if_pos hpos, hfind]
  dsimp only
  rw [if_pos hmis, find_divergence_point_eq]

/-- A detector window holding heights 5, 6, 7 (oldest first). -/
def dWin : ReorgDetector.Detector := ⟨[(5, 50), (6, 60), (7, 70)], 10⟩

/-- A canonical chain on which heights 6 and 7 have diverged but height 5
still matches the stored hash. -/
def canonW : ReorgDetector.Canonical :=
  fun n => if n = 5 then some 50 else if n = 6 then some 61
    else if n = 7 then some 71 else none

/-- C5 witness: block 8 arrives with a mismatching parent hash; the walk
finds 7 and 6 diverged, 5 canonical, so the rollback target is 6 and entries
at heights 6 and 7 are purged. -/
theorem C5_witness :
    ReorgDetector.check_and_record dWin 8 80 999 canonW =
      (some 6, ⟨[(5, 50)], 10⟩) := by
  have h := C5_theorem dWin canonW 8 80 999 (7, 70) (by decide) (by decide)
    (by decide)
  rw [h]
  rfl

/-!  Claim C8: the threshold evaluator.  -/

/-- The effective configuration the engines work with: the parsed
`threshold_config`, defaulted on a parse error. -/
def effective_config (subscription : Subscription) : ThresholdConfig :=
  (parseThresholdConfig subscription.threshold_config).getD default

/-- Spec-side extraction, per the amended claim: scan the keys in order and
take the first key that yields a number — a float directly, or a string
parsing as a decimal float; a key present with an unusable value is skipped
in favour of later keys. -/
def extract_value_rule (data : Jv) : Option ℚ :=
  ["value", "price", "amount", "cr", "vote_power"].findSome? (fun key =>
    (data.get key).bind (fun v =>
      match v.as_f64 with
      | some f => some f
      | none => v.as_str.bind parseF64))

/-- The claim's extraction as literally stated: the first PRESENT key from
the ordered list supplies the value; if that value is neither a float nor a
parsable string, extraction fails — no later key is tried. -/
def extract_value_first_present (data : Jv) : Option ℚ :=
  (["value", "price", "amount", "cr", "vote_power"].findSome?
    (fun key => data.get key)).bind
    (fun v =>
      match v.as_f64 with
      | some f => some f
      | none => v.as_str.bind parseF64)

/-- The claim's `min_value` trigger: the field is set and the value is below
it. -/
def min_trigger (c : ThresholdConfig) (v : ℚ) : Prop :=
  ∃ m, c.min_value = some m ∧ v < m

/-- The claim's `max_value` trigger: the field is set and the value is above
it. -/
def max_trigger (c : ThresholdConfig) (v : ℚ) : Prop :=
  ∃ m, c.max_value = some m ∧ v > m

/-- The claim's `deviation_pct` trigger: the field is set, the payload holds
a numeric nonzero `baseline`, and the relative deviation reaches the
threshold. -/
def deviation_trigger (c : ThresholdConfig) (event : DecodedEvent)
    (v : ℚ) : Prop :=
  ∃ dt b, c.deviation_pct = some dt ∧
    (event.decoded_data.get "baseline").bind Jv.as_f64 = some b ∧
    b ≠ 0 ∧ |(v - b) / b| * 100 ≥ dt

/-- The code's extraction loop agrees with the ordered first-usable-key
scan. -/
theorem extractFromKeys_eq_findSome (data : Jv) (keys : List String) :
    AlertMatcher.extractFromKeys data keys =
      keys.findSome? (fun key =>
        (data.get key).bind (fun v =>
          match v.as_f64 with
          | some f => some f
          | none => v.as_str.bind parseF64)) := by
  induction keys with
  | nil => rfl
  | cons key rest ih =>
    rw [AlertMatcher.extractFromKeys, List.findSome?_cons]
    cases hget : data.get key with
    | none => simpa using ih
    | some v =>
      cases hf : v.as_f64 with
      | some f => simp [hf]
      | none =>
        cases hs : v.as_str with
        | none => simp [hf, hs, ih]
        | some s =>
          cases hp : parseF64 s with
          | none => simp [hf, hs, hp, ih]
          | some f => simp [hf, hs, hp]

/-- C8 (amended): the threshold evaluator returns `true` for every event when
none of `min_value`, `max_value`, `deviation_pct` is set; returns `false`
when at least one is set but no numeric value can be extracted; otherwise
fires exactly when one of the set predicates holds (OR); and extraction scans
the keys `value`, `price`, `amount`, `cr`, `vote_power` in order, taking the
first key that yields a number (a float directly or a string parsing as a
decimal float) — a key present with an unusable value is skipped, not
fatal. -/
theorem C8_theorem (subscription : Subscription) (event : DecodedEvent)
    (data : Jv) (v : ℚ) :
    AlertMatcher.extract_value data = extract_value_rule data ∧
    ((effective_config subscription).min_value = none →
      (effective_config subscription).max_value = none →
      (effective_config subscription).deviation_pct = none →
      AlertMatcher.evaluate_threshold subscription event = true) ∧
    (¬ ((effective_config subscription).min_value = none ∧
        (effective_config subscription).max_value = none ∧
        (effective_config subscription).deviation_pct = none) →
      AlertMatcher.extract_value event.decoded_data = none →
      AlertMatcher.evaluate_threshold subscription event = false) ∧
    (¬ ((effective_config subscription).min_value = none ∧
        (effective_config subscription).max_value = none ∧
        (effective_config subscription).deviation_pct = none) →
      AlertMatcher.extract_value event.decoded_data = some v →
      (AlertMatcher.evaluate_threshold subscription event = true ↔
        (min_trigger (effective_config subscription) v ∨
         max_trigger (effective_config subscription) v ∨
         deviation_trigger (effective_config subscription) event v))) := by
  have hin : ¬ ((effective_config subscription).min_value = none ∧
        (effective_config subscription).max_value = none ∧
        (effective_config subscription).deviation_pct = none) →
      ¬ ((effective_config subscription).min_value.isNone &&
        (effective_config subscription).max_value.isNone &&
        (effective_config subscription).deviation_pct.isNone) = true := by
    intro hset
    simp only [Bool.and_eq_true, Option.isNone_iff_eq_none]
    tauto
  refine ⟨extractFromKeys_eq_findSome data _, ?_, ?_, ?_⟩
  · intro h1 h2 h3
    unfold AlertMatcher.evaluate_threshold
    simp only [effective_config] at h1 h2 h3
    simp [h1, h2, h3]
  · intro hset hnone
    unfold AlertMatcher.evaluate_threshold
    dsimp only
    rw [if_neg (by simpa only [effective_config] using hin hset), hnone]
  · intro hset hsome
    unfold AlertMatcher.evaluate_threshold
    dsimp only
    rw [if_neg (by simpa only [effective_config] using hin hset), hsome]
    simp only [effective_config] at hset ⊢
    cases hmin : ((parseThresholdConfig
        subscription.threshold_config).getD default).min_value <;>
    cases hmax : ((parseThresholdConfig
        subscription.threshold_config).getD default).max_value <;>
    cases hdev : ((parseThresholdConfig
        subscription.threshold_config).getD default).deviation_pct <;>
      simp only [hmin, hmax, hdev] <;>
      simp only [min_trigger, max_trigger, deviation_trigger, effective_config,
        hmin, hmax, hdev] <;>
      cases hbl : (event.decoded_data.get "baseline").bind Jv.as_f64 <;>
      simp [hbl, or_assoc]

/-- C8 counterexample: in the payload with `value = "abc"` (present, not
parsable) followed by `price = 5`, the first PRESENT key yields no number, so
under the claim's extraction no value can be extracted and, with `max_value`
set, the evaluator should return `false`; the code skips the unusable key,
extracts 5 from `price`, and returns `true`. -/
theorem C8_counterexample :
    AlertMatcher.extract_value evStray.decoded_data = some 5 ∧
    extract_value_first_present evStray.decoded_data = none ∧
    AlertMatcher.evaluate_threshold subMax1 evStray = true := by
  refine ⟨by decide, by decide, by decide⟩

/-- C8 witness: the amended claim at concrete inputs — with `max_value = 1`
set and the payload of the counterexample, the evaluator fires because the
extracted value 5 satisfies the max predicate. -/
theorem C8_witness :
    AlertMatcher.evaluate_threshold subMax1 evStray = true :=
  ((C8_theorem subMax1 evStray evStray.decoded_data 5).2.2.2
    (by intro h; exact absurd h.2.1 (by decide))
    (by decide)).mpr
    (Or.inr (Or.inl ⟨1, by decide, by decide⟩))

/-!  Claim C9: decoder edge-case policy.  -/

/-- C9 (amended): a log whose data is shorter than the ABI layout still
decodes to its event, with the data-derived fields present as JSON `null`
(not zero-filled, but also not omitted); and a log with zero topics decodes
to `None` under every decoder, including the generic one.  The data-derived
fields across all decoders are the FAsset `amount` of `collateral_deposited`
and `collateral_withdrawn`, the FAsset `lots` of `minting_executed` and
`redemption_requested`, and the FTSO `new_vote_power` of
`vote_power_changed` — every field the code guards with a data-length check;
the FDC events and `liquidation_started` decode from topics only, and the
generic decoder hex-encodes whatever data is present.  The disequality
hypotheses state that the five stored FAsset signature hashes (distinct
Keccak values in the source) do not collide. -/
theorem C9_theorem (dF : Decoders.FassetDecoder) (dT : Decoders.FtsoDecoder)
    (dC : Decoders.FdcDecoder) (logE logA logV logW logM logR : Decoders.Log)
    (block_number block_timestamp : Nat) (chain : Chain)
    (hE : logE.topics = [])
    (htA : logA.topics.head? = some dF.collateral_deposited)
    (hshortA : logA.data.length < 32)
    (htV : logV.topics.head? = some dT.vote_power_changed)
    (hneV : dT.vote_power_changed ≠ dT.price_epoch_finalized)
    (hshortV : logV.data.length < 32)
    (htW : logW.topics.head? = some dF.collateral_withdrawn)
    (hneW : dF.collateral_withdrawn ≠ dF.collateral_deposited)
    (hshortW : logW.data.length < 32)
    (htM : logM.topics.head? = some dF.minting_executed)
    (hneM1 : dF.minting_executed ≠ dF.collateral_deposited)
    (hneM2 : dF.minting_executed ≠ dF.collateral_withdrawn)
    (hshortM : logM.data.length < 32)
    (htR : logR.topics.head? = some dF.redemption_requested)
    (hneR1 : dF.redemption_requested ≠ dF.collateral_deposited)
    (hneR2 : dF.redemption_requested ≠ dF.collateral_withdrawn)
    (hneR3 : dF.redemption_requested ≠ dF.minting_executed)
    (hshortR : logR.data.length < 32) :
    dF.decode logE block_number block_timestamp chain = none ∧
    dT.decode logE block_number block_timestamp chain = none ∧
    dC.decode logE block_number block_timestamp chain = none ∧
    Decoders.GenericDecoder.decode logE block_number block_timestamp chain =
      none ∧
    (dF.decode logA block_number block_timestamp chain).map
      DecodedEvent.event_type = some EventType.collateral_deposited ∧
    (dF.decode logA block_number block_timestamp chain).bind
      (fun ev => ev.decoded_data.get "amount") = some Jv.jNull ∧
    (dT.decode logV block_number block_timestamp chain).map
      DecodedEvent.event_type = some EventType.vote_power_changed ∧
    (dT.decode logV block_number block_timestamp chain).bind
      (fun ev => ev.decoded_data.get "new_vote_power") = some Jv.jNull ∧
    (dF.decode logW block_number block_timestamp chain).map
      DecodedEvent.event_type = some EventType.collateral_withdrawn ∧
    (dF.decode logW block_number block_timestamp chain).bind
      (fun ev => ev.decoded_data.get "amount") = some Jv.jNull ∧
    (dF.decode logM block_number block_timestamp chain).map
      DecodedEvent.event_type = some EventType.minting_executed ∧
    (dF.decode logM block_number block_timestamp chain).bind
      (fun ev => ev.decoded_data.get "lots") = some Jv.jNull ∧
    (dF.decode logR block_number block_timestamp chain).map
      DecodedEvent.event_type = some EventType.redemption_requested ∧
    (dF.decode logR block_number block_timestamp chain).bind
      (fun ev => ev.decoded_data.get "lots") = some Jv.jNull := by
  have hA32 : ¬ (0 + 32 ≤ logA.data.length) := by omega
  have hV32 : ¬ (32 ≤ logV.data.length) := by omega
  have hW32 : ¬ (0 + 32 ≤ logW.data.length) := by omega
  have hM32 : ¬ (0 + 32 ≤ logM.data.length) := by omega
  have hR32 : ¬ (0 + 32 ≤ logR.data.length) := by omega
  refine ⟨?_, ?_, ?_, ?_, ?_, ?_, ?_, ?_, ?_, ?_, ?_, ?_, ?_, ?_⟩
  · simp [Decoders.FassetDecoder.decode, hE]
  · simp [Decoders.FtsoDecoder.decode, hE]
  · simp [Decoders.FdcDecoder.decode, hE]
  · simp [Decoders.GenericDecoder.decode, hE]
  · simp [Decoders.FassetDecoder.decode, htA]
  · simp [Decoders.FassetDecoder.decode, htA,
      Decoders.decode_u256_from_data, hA32, Decoders.optStr, Jv.get,
      List.find?]
  · simp [Decoders.FtsoDecoder.decode, htV, hneV]
  · simp [Decoders.FtsoDecoder.decode, htV, hneV, hV32, Decoders.optStr,
      Jv.get, List.find?]
  · simp [Decoders.FassetDecoder.decode, htW, hneW]
  · simp [Decoders.FassetDecoder.decode, htW, hneW,
      Decoders.decode_u256_from_data, hW32, Decoders.optStr, Jv.get,
      List.find?]
  · simp [Decoders.FassetDecoder.decode, htM, hneM1, hneM2]
  · simp [Decoders.FassetDecoder.decode, htM, hneM1, hneM2,
      Decoders.decode_u256_from_data, hM32, Decoders.optStr, Jv.get,
      List.find?]
  · simp [Decoders.FassetDecoder.decode, htR, hneR1, hneR2, hneR3]
  · simp [Decoders.FassetDecoder.decode, htR, hneR1, hneR2, hneR3,
      Decoders.decode_u256_from_data, hR32, Decoders.optStr, Jv.get,
      List.find?]

/-- A concrete FAsset decoder (hash constants stand in for the Keccak values
computed in `new`). -/
def dFw : Decoders.FassetDecoder := ⟨[1], [2], [3], [4], [5]⟩

/-- A concrete FTSO decoder. -/
def dTw : Decoders.FtsoDecoder := ⟨[11], [12], [13]⟩

/-- A concrete FDC decoder. -/
def dCw : Decoders.FdcDecoder := ⟨[21], [22], [23]⟩

/-- A log with no topics. -/
def logNoTopics : Decoders.Log := ⟨List.replicate 20 170, [], []⟩

/-- A `CollateralDeposited` log with an indexed agent topic but empty data
(shorter than the 32-byte amount). -/
def logShortDeposit : Decoders.Log :=
  ⟨List.replicate 20 170, [[1], List.replicate 32 0], []⟩

/-- A `VotePowerChanged` log with empty data. -/
def logShortVote : Decoders.Log :=
  ⟨List.replicate 20 170, [[12], List.replicate 32 0], []⟩

/-- A `CollateralWithdrawn` log with empty data. -/
def logShortWithdraw : Decoders.Log :=
  ⟨List.replicate 20 170, [[2], List.replicate 32 0], []⟩

/-- A `MintingExecuted` log with empty data (shorter than the 32-byte
lots). -/
def logShortMint : Decoders.Log :=
  ⟨List.replicate 20 170,
    [[3], List.replicate 32 0, List.replicate 32 1], []⟩

/-- A `RedemptionRequested` log with empty data. -/
def logShortRedeem : Decoders.Log :=
  ⟨List.replicate 20 170,
    [[4], List.replicate 32 0, List.replicate 32 1], []⟩

/-- C9 counterexample: the short-data `CollateralDeposited` log decodes with
the `amount` key PRESENT and bound to JSON `null` — the claim states the
field is omitted and in particular not present as a null value. -/
theorem C9_counterexample :
    (dFw.decode logShortDeposit 100 0 Chain.flare).map
      DecodedEvent.event_type = some EventType.collateral_deposited ∧
    (dFw.decode logShortDeposit 100 0 Chain.flare).bind
      (fun ev => ev.decoded_data.get "amount") = some Jv.jNull := by
  exact ⟨rfl, rfl⟩

/-- C9 witness: the amended claim at the concrete decoders and logs. -/
theorem C9_witness :
    dFw.decode logNoTopics 100 0 Chain.flare = none ∧
    dTw.decode logNoTopics 100 0 Chain.flare = none ∧
    dCw.decode logNoTopics 100 0 Chain.flare = none ∧
    Decoders.GenericDecoder.decode logNoTopics 100 0 Chain.flare = none ∧
    (dFw.decode logShortDeposit 100 0 Chain.flare).map
      DecodedEvent.event_type = some EventType.collateral_deposited ∧
    (dFw.decode logShortDeposit 100 0 Chain.flare).bind
      (fun ev => ev.decoded_data.get "amount") = some Jv.jNull ∧
    (dTw.decode logShortVote 100 0 Chain.flare).map
      DecodedEvent.event_type = some EventType.vote_power_changed ∧
    (dTw.decode logShortVote 100 0 Chain.flare).bind
      (fun ev => ev.decoded_data.get "new_vote_power") = some Jv.jNull ∧
    (dFw.decode logShortWithdraw 100 0 Chain.flare).map
      DecodedEvent.event_type = some EventType.collateral_withdrawn ∧
    (dFw.decode logShortWithdraw 100 0 Chain.flare).bind
      (fun ev => ev.decoded_data.get "amount") = some Jv.jNull ∧
    (dFw.decode logShortMint 100 0 Chain.flare).map
      DecodedEvent.event_type = some EventType.minting_executed ∧
    (dFw.decode logShortMint 100 0 Chain.flare).bind
      (fun ev => ev.decoded_data.get "lots") = some Jv.jNull ∧
    (dFw.decode logShortRedeem 100 0 Chain.flare).map
      DecodedEvent.event_type = some EventType.redemption_requested ∧
    (dFw.decode logShortRedeem 100 0 Chain.flare).bind
      (fun ev => ev.decoded_data.get "lots") = some Jv.jNull :=
  C9_theorem dFw dTw dCw logNoTopics logShortDeposit logShortVote
    logShortWithdraw logShortMint logShortRedeem 100 0 Chain.flare
    rfl rfl (by decide) rfl (by decide) (by decide)
    rfl (by decide) (by decide)
    rfl (by decide) (by decide) (by decide)
    rfl (by decide) (by decide) (by decide) (by decide)

end ClaimProofs

end Flare
